import Mathlib

/-!
Verification of the KeetoSalesAgent services against their specification.

Each Python function relevant to a claim is shallow-embedded as an
executable Lean definition, translated clause by clause from the sources
under `src/`.  Network calls (browser service, CRM providers, the web
search library, the LLM) are the services' external boundary and are
represented as explicit oracle parameters carrying the outcome of each
call; everything on this side of those boundaries is modelled exactly.
-/

namespace Keeto

/-- Python's `needle in haystack` on strings: substring containment
(`"" in s` is true). -/
def pyIn (needle hay : String) : Bool :=
  goIn needle.data hay.data
where
  goIn (n : List Char) : List Char → Bool
    | [] => n.isEmpty
    | c :: rest => List.isPrefixOf n (c :: rest) || goIn n rest

/-- Python's `str.lower()`; the inputs reaching the embedded code paths are
ASCII, where Lean's `Char.toLower` agrees with Python. -/
def pyLower (s : String) : String := ⟨s.data.map Char.toLower⟩

/-- Python's `str.strip()` (whitespace at both ends). -/
def pyStrip (s : String) : String :=
  ⟨((s.data.dropWhile Char.isWhitespace).reverse.dropWhile Char.isWhitespace).reverse⟩

/-- `s[n:]` (Python slices strings by characters). -/
def pyDropChars (s : String) (n : Nat) : String := ⟨s.data.drop n⟩

/-- Python's `str.startswith`. -/
def pyStartsWith (s pre : String) : Bool := List.isPrefixOf pre.data s.data

/-- Splitter behind `str.split(sep)` for a non-empty separator: greedy
left-to-right scan; the fuel argument (always at least the list length
plus one) only makes the recursion structural. -/
def splitOnFuel (pat : List Char) : Nat → List Char → List Char → List (List Char)
  | 0, l, acc => [acc.reverse ++ l]
  | _ + 1, [], acc => [acc.reverse]
  | fuel + 1, c :: rest, acc =>
    if List.isPrefixOf pat (c :: rest) then
      acc.reverse :: splitOnFuel pat fuel ((c :: rest).drop pat.length) []
    else splitOnFuel pat fuel rest (c :: acc)

/-- Python's `str.split(sep)` for a non-empty separator. -/
def pySplit (sep : String) (s : String) : List String :=
  (splitOnFuel sep.data (s.data.length + 1) s.data []).map (fun l => ⟨l⟩)

/-- `sep.join(parts)`. -/
def pyJoin (sep : String) (parts : List String) : String :=
  ⟨List.intercalate sep.data (parts.map (fun p => p.data))⟩

/-- Python's `str.replace(pat, repl)` for a non-empty pattern. -/
def pyReplace (s pat repl : String) : String := pyJoin repl (pySplit pat s)

/-- Python's `str.strip("'\"")`: remove any leading/trailing single or
double quotes. -/
def stripQuoteChars (s : String) : String :=
  let isQ : Char → Bool := fun c => c = '\'' || c = '"'
  (((s.data.dropWhile isQ).reverse.dropWhile isQ).reverse).asString

-- ===========================================================================
-- C7: `save_lead` free-text parsing
-- (src/services/conversation_service/app/crm_tools.py, lines 29-94)
-- ===========================================================================

/-- Character class `[a-zA-Z0-9._%+-]` of the email regex in `save_lead`. -/
def emailLocalChar (c : Char) : Bool :=
  c.isAlpha || c.isDigit || c = '.' || c = '_' || c = '%' || c = '+' || c = '-'

/-- Character class `[a-zA-Z0-9.-]` of the email regex. -/
def emailDomChar (c : Char) : Bool :=
  c.isAlpha || c.isDigit || c = '.' || c = '-'

/-- `[a-zA-Z]` (Lean's `Char.isAlpha` is exactly ASCII letters). -/
def asciiAlpha (c : Char) : Bool := c.isAlpha

/-- `[a-zA-Z]{2,}` looking only at the first two characters (the regex may
leave a suffix unmatched, as `re.match` does not anchor the end). -/
def twoAlpha : List Char → Bool
  | a :: b :: _ => asciiAlpha a && asciiAlpha b
  | _ => false

/-- After at least one `[a-zA-Z0-9.-]` character: either the literal `.`
followed by two letters matches here, or consume one more class character
and continue (this searches every backtracking split of `[a-zA-Z0-9.-]+\.`). -/
def emailTailAux : List Char → Bool
  | [] => false
  | c :: rest => (c = '.' && twoAlpha rest) || (emailDomChar c && emailTailAux rest)

/-- Matches `[a-zA-Z0-9.-]+\.[a-zA-Z]{2,}` at the start of the list. -/
def emailTail : List Char → Bool
  | [] => false
  | c :: rest => emailDomChar c && emailTailAux rest

/-- After at least one `[a-zA-Z0-9._%+-]` character: the `@` and the domain
part, or one more local-part character (`@` is not in the local class, so
this is the regex's only behaviour). -/
def emailAfterFirst : List Char → Bool
  | [] => false
  | c :: rest => (c = '@' && emailTail rest) || (emailLocalChar c && emailAfterFirst rest)

/-- `re.match(r'[a-zA-Z0-9._%+-]+@[a-zA-Z0-9.-]+\.[a-zA-Z]{2,}', s)` as a
Boolean: the pattern matches at position 0 (a trailing remainder of `s` is
allowed, exactly as `re.match` allows one). -/
def emailMatch (s : String) : Bool :=
  match s.data with
  | [] => false
  | c :: rest => emailLocalChar c && emailAfterFirst rest

/-- The prefixes `save_lead` strips from the input (lower-case comparison). -/
def leadInputDrops : List String :=
  ["save a lead:", "save lead:", "add a lead:", "add lead:",
   "create a lead:", "create lead:", "new lead:"]

/-- The `for prefix in prefixes_to_strip: if lower.startswith(...)` loop:
drop the first matching entry and strip, else keep the input. -/
def stripLeadDirective (s : String) : String :=
  match leadInputDrops.find? (fun p => pyStartsWith (pyLower s) p) with
  | some p => pyStrip (pyDropChars s p.data.length)
  | none => s

/-- Delimiter detection of `save_lead`: split on `|` when present, else on
`,`; every part is stripped. -/
def splitParts (s : String) : List String :=
  if pyIn "|" s then (pySplit "|" s).map pyStrip else (pySplit "," s).map pyStrip

/-- The `lead_data` dict assembled by `save_lead` (name plus the optional
email/company/summary fields; the HTTP POST that follows is outside the
parser). -/
structure ParsedLead where
  name : String
  email : Option String
  company : Option String
  summary : Option String
deriving DecidableEq, Repr

/-- The field-detection loop over `parts[1:]`: first matching branch wins,
later parts fill the first still-empty slot, mirroring the `if/elif`
chain and the `"email" not in lead_data` membership tests. -/
def assignParts : List String → Option String → Option String → Option String →
    Option String × Option String × Option String
  | [], e, c, su => (e, c, su)
  | p :: rest, e, c, su =>
    let q := pyStrip p
    if emailMatch q && e.isNone then assignParts rest (some q) c su
    else if e.isNone && pyIn "@" q then assignParts rest (some q) c su
    else if c.isNone && !(emailMatch q) then assignParts rest e (some q) su
    else if su.isNone then assignParts rest e c (some q)
    else assignParts rest e c su

/-- `save_lead`'s parsing stage (crm_tools.py lines 43-85): strip, drop a
leading directive, split, detect the email by pattern, then the positional
4+-token fallback overwriting email/company/summary when no email was
pattern-matched. -/
def save_lead_parse (input : String) : ParsedLead :=
  let s := stripLeadDirective (stripQuoteChars (pyStrip input))
  let parts := splitParts s
  let base := assignParts parts.tail none none none
  let fields :=
    if 4 ≤ parts.length && base.1.isNone then
      (some ((parts.drop 1).headD ""), some ((parts.drop 2).headD ""),
       some ((parts.drop 3).headD ""))
    else base
  { name := parts.headD "Unknown"
    email := fields.1
    company := fields.2.1
    summary := fields.2.2 }

-- ===========================================================================
-- CRM service data model (src/services/crm_service/app/models.py, schemas.py)
-- ===========================================================================

/-- The status enumeration `LeadStatus` of models.py. -/
inductive LeadStatus where
  | new | contacted | qualified | converted | lost
deriving DecidableEq, Repr

/-- The `value` strings of the `LeadStatus` enum, in declaration order. -/
def leadStatusValues : List String :=
  ["new", "contacted", "qualified", "converted", "lost"]

/-- `LeadStatus(value)`: the member with that value, or `none` where Python
raises `ValueError`. -/
def leadStatusOf (s : String) : Option LeadStatus :=
  if s = "new" then some .new
  else if s = "contacted" then some .contacted
  else if s = "qualified" then some .qualified
  else if s = "converted" then some .converted
  else if s = "lost" then some .lost
  else none

/-- A row of the `leads` table exactly as models.py declares it: name,
contact fields, status and timestamps.  models.py declares **no**
`external_id`, `provider`, `synced_at` or `sync_error` columns (the
timestamps play no role in the claims and are omitted).  The status column
is kept as its enum value string. -/
structure LeadRow where
  name : String
  email : Option String
  phone : Option String
  company : Option String
  summary : Option String
  status : String
deriving DecidableEq, Repr

/-- The in-memory `Lead` instance main.py manipulates.  Because the columns
above are the only attributes the class defines, reading
`lead.external_id` on a freshly loaded instance raises `AttributeError`;
main.py nevertheless assigns `external_id`/`provider`/`synced_at`/
`sync_error` as plain (non-persisted) instance attributes, which the
`dyn…` fields record: `none` = never assigned (a read raises), `some v` =
assigned `v` in this instance's lifetime. -/
structure PyLead where
  row : LeadRow
  dynExternalId : Option (Option String) := none
  dynProvider : Option String := none
  dynSyncedAt : Option Nat := none
  dynSyncError : Option (Option String) := none
deriving DecidableEq, Repr

/-- A `db.query(Lead).filter(...).first()` result: a fresh instance whose
only attributes are the mapped columns. -/
def loadLead (row : LeadRow) : PyLead := { row := row }

/-- `lead.external_id` as Python evaluates it on a `PyLead`: the assigned
value, or the `AttributeError` whose text CPython produces. -/
def readExternalId (l : PyLead) : Except String (Option String) :=
  match l.dynExternalId with
  | some v => Except.ok v
  | none => Except.error "'Lead' object has no attribute 'external_id'"

/-- `str(e)[:500]` (Python slices by characters). -/
def truncate500 (s : String) : String := (s.data.take 500).asString

-- ===========================================================================
-- C1: lead sync (src/services/crm_service/app/main.py)
-- ===========================================================================

/-- A contact representation returned by a CRM adapter (`{"external_id",
"provider", ...}` per adapters/base.py). -/
structure CrmContact where
  external_id : String
  provider : String
deriving DecidableEq, Repr

/-- The `lead_data` dict main.py builds before calling an adapter. -/
structure LeadData where
  name : String
  email : String
  phone : String
  company : String
  summary : String
deriving DecidableEq, Repr

/-- `lead_data` from a row (empty-string defaults as in main.py). -/
def leadDataOf (r : LeadRow) : LeadData :=
  { name := r.name, email := r.email.getD "", phone := r.phone.getD "",
    company := r.company.getD "", summary := r.summary.getD "" }

/-- One call made to the external CRM adapter, recorded in order. -/
inductive CrmCall where
  | search (email : String)
  | create (data : LeadData)
  | update (externalId : String) (data : LeadData)
deriving DecidableEq, Repr

/-- The adapter's three-method contract, as an oracle giving the outcome of
each possible call (`search_contact` returns the match or `None`;
`create_contact`/`update_contact` return a contact or raise). -/
structure CrmAdapter where
  searchContact : String → Option CrmContact
  createContact : LeadData → Except String CrmContact
  updateContact : String → LeadData → Except String CrmContact

/-- The `SyncResponse` schema (schemas.py), minus the echoed lead id. -/
structure SyncResponse where
  provider : String
  external_id : Option String
  success : Bool
  message : String
deriving DecidableEq, Repr

/-- What one run of a sync routine yields: the HTTP-level response, the CRM
calls it made in order, and the in-memory lead instance afterwards (none
of the `dyn…` attributes it writes correspond to a column, so none of them
survive the `db.commit()`). -/
structure SyncRun where
  response : SyncResponse
  calls : List CrmCall
  lead : PyLead
deriving Repr

/-- `POST /leads/{lead_id}/sync` (main.py lines 318-373) for an existing
lead: the no-adapter short circuit, then the try block — read
`lead.external_id` (which raises on a fresh instance), update when set,
else create, record the linkage fields and clear `sync_error`; the except
branch stores the truncated error text and reports failure.  `envProvider`
is `os.getenv("CRM_PROVIDER", "none")`, `now` stands for
`datetime.utcnow()`. -/
def sync_lead (l : PyLead) (crm : Option CrmAdapter) (envProvider : String)
    (now : Nat) : SyncRun :=
  match crm with
  | none =>
    let resp : SyncResponse :=
      { provider := "none", external_id := none, success := false,
        message := "No CRM provider configured. Set CRM_PROVIDER env var." }
    { response := resp, calls := [], lead := l }
  | some adapter =>
    let data := leadDataOf l.row
    let failRun : String → List CrmCall → SyncRun := fun e calls =>
      let resp : SyncResponse :=
        { provider := envProvider, external_id := none, success := false,
          message := "Sync failed: " ++ e }
      { response := resp, calls := calls,
        lead := { l with dynSyncError := some (some (truncate500 e)) } }
    let okRun : CrmContact → List CrmCall → SyncRun := fun c calls =>
      let resp : SyncResponse :=
        { provider := c.provider, external_id := some c.external_id,
          success := true, message := "Lead synced to " ++ c.provider }
      let linked : PyLead :=
        { l with dynExternalId := some (some c.external_id),
                 dynProvider := some c.provider, dynSyncedAt := some now,
                 dynSyncError := some none }
      { response := resp, calls := calls, lead := linked }
    match readExternalId l with
    | .error e => failRun e []
    | .ok (some eid) =>
      match adapter.updateContact eid data with
      | .ok c => okRun c [CrmCall.update eid data]
      | .error e => failRun e [CrmCall.update eid data]
    | .ok none =>
      match adapter.createContact data with
      | .ok c => okRun c [CrmCall.create data]
      | .error e => failRun e [CrmCall.create data]

/-- Result of the background task `sync_lead_to_crm` (main.py lines
73-144): the final in-memory lead, the CRM calls in order, and whether the
internal notification email was fired. -/
structure BgSyncRun where
  calls : List CrmCall
  lead : PyLead
  emailSent : Bool
deriving Repr

/-- `sync_lead_to_crm` (main.py lines 73-144) for an existing lead and a
configured adapter: read `lead.external_id` (raises on a fresh instance,
landing in the except branch that writes the truncated error text); when
readable and set, a no-op; else search by email first when the email is
truthy, link to the found contact or create one, then send the
notification email.  The missing-lead and no-adapter no-ops are handled by
the caller passing `none`. -/
def sync_lead_to_crm (l : PyLead) (adapter : CrmAdapter) (now : Nat) : BgSyncRun :=
  let data := leadDataOf l.row
  let linkTo : CrmContact → PyLead := fun c =>
    { l with dynExternalId := some (some c.external_id),
             dynProvider := some c.provider, dynSyncedAt := some now,
             dynSyncError := some none }
  match readExternalId l with
  | .error e =>
    { calls := [],
      lead := { l with dynSyncError := some (some (truncate500 e)) },
      emailSent := false }
  | .ok (some _) => { calls := [], lead := l, emailSent := false }
  | .ok none =>
    let emailTruthy := match l.row.email with
      | some e => !(e = "")
      | none => false
    let existing := if emailTruthy then adapter.searchContact (l.row.email.getD "") else none
    let searchCalls := if emailTruthy then [CrmCall.search (l.row.email.getD "")] else []
    match existing with
    | some c => { calls := searchCalls, lead := linkTo c, emailSent := true }
    | none =>
      match adapter.createContact data with
      | .ok c =>
        { calls := searchCalls ++ [CrmCall.create data], lead := linkTo c,
          emailSent := true }
      | .error e =>
        { calls := searchCalls ++ [CrmCall.create data],
          lead := { l with dynSyncError := some (some (truncate500 e)) },
          emailSent := false }

-- ===========================================================================
-- C4: PATCH /leads/{id} status validation
-- (src/services/crm_service/app/schemas.py lines 52-60, main.py 278-297)
-- ===========================================================================

/-- The JSON body of a PATCH request as pydantic's
`model_dump(exclude_unset=True)` sees it: `none` = the key was absent. -/
structure LeadUpdatePayload where
  name : Option String := none
  email : Option String := none
  phone : Option String := none
  company : Option String := none
  summary : Option String := none
  status : Option String := none
deriving DecidableEq, Repr

/-- The boundary validation the `LeadUpdate` pydantic schema performs
(schemas.py lines 52-60): per-field `max_length` on the four bounded
string fields.  `status` is declared `Optional[str] = Field(default=None)`
with **no** constraint, so no value of it is rejected here. -/
def validateLeadUpdate (p : LeadUpdatePayload) : Except String LeadUpdatePayload :=
  if 255 < (p.name.getD "").length then .error "name: string too long (max_length 255)"
  else if 255 < (p.email.getD "").length then .error "email: string too long (max_length 255)"
  else if 50 < (p.phone.getD "").length then .error "phone: string too long (max_length 50)"
  else if 255 < (p.company.getD "").length then .error "company: string too long (max_length 255)"
  else .ok p

/-- The `update_lead` handler's field loop (main.py lines 287-291) over the
provided fields in declaration order; for `status` with a truthy (here:
non-empty) value it applies `LeadStatus(value)`, whose `ValueError`
escapes the handler (the later `SQLEnum` behaviour of a falsy write is
outside this model). -/
def update_lead (lead : LeadRow) (p : LeadUpdatePayload) : Except String LeadRow :=
  let l1 := match p.name with | some v => { lead with name := v } | none => lead
  let l2 := match p.email with | some v => { l1 with email := some v } | none => l1
  let l3 := match p.phone with | some v => { l2 with phone := some v } | none => l2
  let l4 := match p.company with | some v => { l3 with company := some v } | none => l3
  let l5 := match p.summary with | some v => { l4 with summary := some v } | none => l4
  match p.status with
  | none => .ok l5
  | some v =>
    if v = "" then .ok { l5 with status := v }
    else match leadStatusOf v with
      | some _ => .ok { l5 with status := v }
      | none => .error ("ValueError: '" ++ v ++ "' is not a valid LeadStatus")

/-- The observable outcome of `PATCH /leads/{id}`: a 4xx rejection at the
pydantic boundary (the handler never runs), a 500 from an exception inside
the handler (the session is closed uncommitted, so the stored row is
untouched), or the committed update. -/
inductive PatchOutcome where
  | validationError (msg : String)
  | serverError (msg : String)
  | ok (updated : LeadRow)
deriving DecidableEq, Repr

/-- `PATCH /leads/{id}` end to end for an existing lead: boundary
validation, then the handler. -/
def patch_lead (stored : LeadRow) (p : LeadUpdatePayload) : PatchOutcome :=
  match validateLeadUpdate p with
  | .error m => .validationError m
  | .ok body =>
    match update_lead stored body with
    | .error m => .serverError m
    | .ok r => .ok r

/-- The row in the database after the request (only a committed `.ok`
changes it). -/
def storedAfterPatch (stored : LeadRow) (p : LeadUpdatePayload) : LeadRow :=
  match patch_lead stored p with
  | .ok r => r
  | _ => stored

-- ===========================================================================
-- Conversation-service graph state
-- (src/services/conversation_service/app/graph/state.py, demo_state.py)
-- ===========================================================================

/-- Message authorship: `HumanMessage` vs `AIMessage`. -/
inductive Role where
  | user | assistant
deriving DecidableEq, Repr

/-- One conversation message. -/
structure Msg where
  role : Role
  content : String
deriving DecidableEq, Repr

/-- The demo-state dict as demo_node.py constructs and reads it
(`is_active`, `step`, `target_site`, `awaiting_confirmation`,
`retry_count`). -/
structure DemoState where
  is_active : Bool
  step : Nat
  target_site : String
  awaiting_confirmation : Bool
  retry_count : Nat
deriving DecidableEq, Repr

/-- The `user_context` dict fields the demo node reads. -/
structure UserCtx where
  name : Option String
  role : Option String
  company : Option String
deriving DecidableEq, Repr

/-- The `AgentState` fields the router and demo nodes read (`none` for
`demo` covers both an absent key and an explicit `None`). -/
structure AgentStateM where
  messages : List Msg
  user_context : Option UserCtx
  demo : Option DemoState
deriving Repr

-- ===========================================================================
-- C6: router_node
-- (src/services/conversation_service/app/graph/nodes.py, lines 132-191)
-- ===========================================================================

/-- The partial state update a router run returns: the `next_action` value
and whether the update carries `"demo": None` (the reset issued on a
`start_demo` classification). -/
structure RouterUpdate where
  next_action : String
  resetDemo : Bool
deriving DecidableEq, Repr

/-- `router_node` with the LLM classification as an oracle:
`classifyOutcome = none` models `chain.invoke` raising, `some raw` the
reply content.  Mirrors nodes.py lines 146-191: active demo short-circuit,
empty history and non-user newest message default to chat, `start_demo`
resets the demo and dispatches to it, the four valid intents pass through,
anything else is coerced to chat. -/
def router_node (state : AgentStateM) (classifyOutcome : Option String) :
    RouterUpdate :=
  let demoActive := match state.demo with
    | some d => d.is_active
    | none => false
  if demoActive then { next_action := "demo", resetDemo := false }
  else match state.messages.getLast? with
  | none => { next_action := "chat", resetDemo := false }
  | some last =>
    if last.role = Role.user then
      match classifyOutcome with
      | none => { next_action := "chat", resetDemo := false }
      | some raw =>
        let intent := pyLower (pyStrip raw)
        if intent = "start_demo" then { next_action := "demo", resetDemo := true }
        else if intent ∈ ["navigate", "enrich", "crm", "chat"] then
          { next_action := intent, resetDemo := false }
        else { next_action := "chat", resetDemo := false }
    else { next_action := "chat", resetDemo := false }

-- ===========================================================================
-- Demo node (src/services/conversation_service/app/graph/demo_node.py)
-- ===========================================================================

/-- One entry of the `DEMO_STEPS` table. -/
structure StepInfo where
  name : String
  descr : String
  action : Option String
  awaits_confirmation : Bool
  voice_script : String
deriving DecidableEq, Repr

/-- `DEMO_STEPS[6]`, the table's default for out-of-range keys. -/
def demoStep6 : StepInfo :=
  { name := "complete", descr := "Demo completed successfully", action := none,
    awaits_confirmation := false,
    voice_script := "Demo complete! Contact sales at keeto.ai for more." }

/-- `DEMO_STEPS.get(n, DEMO_STEPS[6])` (demo_node.py lines 43-93, 414). -/
def demoStepsGet (n : Nat) : StepInfo :=
  if n = 0 then
    { name := "intro", descr := "Introduction to the demo", action := none,
      awaits_confirmation := true,
      voice_script := "Welcome! I'm Ravi, your guide. Say 'start' when ready." }
  else if n = 1 then
    { name := "navigate", descr := "Opening YouTube.com in the browser",
      action := some "navigate_youtube", awaits_confirmation := true,
      voice_script := "Opening YouTube now. Say 'next' to continue." }
  else if n = 2 then
    { name := "search_type",
      descr := "Typing 'artificial intelligence' in the search box",
      action := some "type_search", awaits_confirmation := true,
      voice_script := "Searching for AI videos. Say 'next' when ready." }
  else if n = 3 then
    { name := "search_click", descr := "Executing the search",
      action := some "click_search", awaits_confirmation := false,
      voice_script := "Here are the search results." }
  else if n = 4 then
    { name := "select_video",
      descr := "Selecting the first video from the search results",
      action := some "click_video", awaits_confirmation := true,
      voice_script := "Playing the first video. Say 'next' to continue." }
  else if n = 5 then
    { name := "pause_video",
      descr := "Pausing the video to demonstrate playback controls",
      action := some "pause_video", awaits_confirmation := false,
      voice_script := "Paused the video." }
  else demoStep6

/-- The `data` dict `_get_video_state` extracts from the browser service:
the `exists` key (`present` here, `exists` being a Lean keyword) and the
optional `paused` key, read with varying defaults. -/
structure VideoState where
  present : Bool
  paused : Option Bool
deriving DecidableEq, Repr

/-- The demo node's external boundary for one turn, as oracles: the result
string of `_execute_demo_action` per action name and retry attempt (that
helper is itself pure orchestration of browser HTTP calls and returns only
this string to the node), the LLM reply of `_generate_demo_response`
(`none` = the chain raised), and the successive `_get_video_state`
answers inside `_handle_interrupt_command` (before and after the `k`
key press). -/
structure DemoEnv where
  exec : String → Nat → String
  llm : Option String
  video1 : VideoState
  video2 : VideoState

/-- `user_context.get('name', 'there') if user_context else 'there'`. -/
def demoUserName (ctx : Option UserCtx) : String :=
  match ctx with
  | none => "there"
  | some c => c.name.getD "there"

/-- `_handle_interrupt_command` (demo_node.py lines 117-159): pause-family
words first, then play-family words; returns the (chat text, voice text)
reply, or `none` when the message is not an interrupt command (including
the play-family fall-through when no paused video exists).  Only video
queries and the `k` key press happen here; the function returns no state. -/
def handleInterrupt (userText userName : String) (env : DemoEnv) :
    Option (String × String) :=
  let t := pyLower userText
  if ["pause", "stop video", "pause video", "hold"].any (fun w => pyIn w t) then
    if env.video1.present then
      if !(env.video1.paused.getD true) then
        if env.video2.paused.getD false then
          some ("Done, " ++ userName ++ "! I've paused the video. Say **'next'** to continue the demo or **'play'** to resume.",
                "Video paused.")
        else
          some ("I tried to pause but it didn't work. The video might still be loading.",
                "Couldn't pause right now.")
      else some ("The video is already paused, " ++ userName ++ ".", "Already paused.")
    else some ("There's no video playing right now.", "No video playing.")
  else if ["play", "resume", "unpause", "continue video"].any (fun w => pyIn w t) then
    if env.video1.present && env.video1.paused.getD true then
      some ("Resuming the video, " ++ userName ++ "! Say **'next'** when you're ready to continue the demo.",
            "Video playing.")
    else none
  else none

/-- The fixed intro text of `_generate_demo_response` for step 0. -/
def demoWelcomeText (userName : String) : String :=
  "🎬 **Welcome to the YouTube Demo!**\n\nHi " ++ userName ++
  "! I'm Ravi, and I'll be your guide today.\n\nI'm going to show you how our AI agent can interact with YouTube by:\n1. **Searching** for \"artificial intelligence\" videos\n2. **Selecting** a video from the results\n3. **Controlling** playback\n\nReady to start? Just say **\"yes\"** or **\"start\"** when you're ready!"

/-- The fixed wrap-up text of `_generate_demo_response` for step 6. -/
def demoCompleteText (userName : String) : String :=
  "✅ **Demo Complete!**\n\nGreat job following along, " ++ userName ++
  "! You've just seen our AI agent:\n- Navigate to YouTube\n- Search for content\n- Select and control video playback\n\n**Interested in having this capability for YOUR product?**\n\n📞 Book a demo with our sales team: **+1-555-0199**\n📧 Or email us at: **sales@keeto.ai**\n\nIs there anything else you'd like to know about Keeto?"

/-- The fixed retry notice of `_generate_demo_response`. -/
def demoRetryText : String :=
  "I'm having a bit of trouble with this step. Let me try again... Say **'yes'** to retry or **'skip'** to move on."

/-- `_generate_demo_response` (demo_node.py lines 279-342): fixed texts for
steps 0 and 6 and for a retry, otherwise the LLM chain's reply, with the
`except` fallback text when the chain raises. -/
def genDemoResponse (stepNumber : Nat) (userName : String) (isRetry : Bool)
    (llm : Option String) : String :=
  if stepNumber = 0 then demoWelcomeText userName
  else if stepNumber = 6 then demoCompleteText userName
  else if isRetry then demoRetryText
  else match llm with
    | some content => content
    | none => "Done with step " ++ toString stepNumber ++ ". Say 'next' to continue."

/-- What one `demo_node` run returns: the `AIMessage` content, its
`voice_text`, and the new `demo` dict. -/
structure DemoResult where
  text : String
  voice : String
  demo : DemoState
deriving DecidableEq, Repr

/-- The confirmation word list of demo_node.py line 383. -/
def confirmWords : List String :=
  ["yes", "yeah", "yep", "ok", "okay", "sure", "start", "go", "continue", "next"]

/-- The cancel word list of demo_node.py line 394. -/
def cancelWords : List String := ["no", "stop", "cancel", "exit", "quit"]

/-- Outcome of the user-input block (demo_node.py lines 379-411): an early
return, or fall-through with the updated `current_step`/`retry_count`
locals (the `awaiting` local is dead after the block and dropped). -/
inductive InputPhase where
  | early (r : DemoResult)
  | run (step : Nat) (retry : Nat)
deriving Repr

/-- The `if awaiting and messages` block of `demo_node`, checked against the
latest message: substring matching of the confirmation words, then
`"skip"`, then the cancel words, then the interrupt handler, then the
"I'm in demo mode" re-prompt (the last three return early; the interrupt
and re-prompt branches return the incoming `demo` dict unchanged). -/
def demoInputPhase (d : DemoState) (messages : List Msg) (userName : String)
    (env : DemoEnv) : InputPhase :=
  if d.awaiting_confirmation && !messages.isEmpty then
    match messages.getLast? with
    | none => InputPhase.run d.step d.retry_count
    | some last =>
      if last.role = Role.user then
        let t := pyLower last.content
        if confirmWords.any (fun c => pyIn c t) then InputPhase.run (d.step + 1) 0
        else if pyIn "skip" t then InputPhase.run (d.step + 1) 0
        else if cancelWords.any (fun c => pyIn c t) then
          InputPhase.early
            { text := "No problem, " ++ userName ++ "! Demo cancelled.",
              voice := "Demo cancelled. Talk to you later!",
              demo := { is_active := false, step := 0, target_site := "",
                        awaiting_confirmation := false, retry_count := 0 } }
        else match handleInterrupt last.content userName env with
          | some r => InputPhase.early { text := r.1, voice := r.2, demo := d }
          | none =>
            InputPhase.early
              { text := "I'm in demo mode, " ++ userName ++ ". Say **'next'** to continue, **'pause'** to pause the video, or **'stop'** to exit.",
                voice := "Say next to continue.",
                demo := d }
      else InputPhase.run d.step d.retry_count
  else InputPhase.run d.step d.retry_count

/-- The step-execution half of `demo_node` (demo_node.py lines 413-479):
run the step's action if any, detect failure by the words "issue"/"error"
in the lower-cased result, and either store the same step with the bumped
retry counter awaiting a fresh confirmation (silent-retry notice below 2
attempts, explicit retry-or-skip question at 2 or more), or generate the
success response and advance per `awaits_confirmation`. -/
def demoExecutePhase (current retry : Nat) (userName : String) (env : DemoEnv) :
    DemoResult :=
  let si := demoStepsGet current
  let success : String → DemoResult := fun _actionResult =>
    let nextStep := if si.awaits_confirmation then current else current + 1
    { text := genDemoResponse current userName false env.llm,
      voice := si.voice_script,
      demo := { is_active := decide (current < 6), step := nextStep,
                target_site := "youtube",
                awaiting_confirmation := si.awaits_confirmation,
                retry_count := 0 } }
  match si.action with
  | none => success ""
  | some act =>
    let actionResult := env.exec act retry
    let failed := pyIn "issue" (pyLower actionResult) ||
                  pyIn "error" (pyLower actionResult)
    if failed then
      let retry2 := retry + 1
      let failDemo : DemoState :=
        { is_active := true, step := current, target_site := "youtube",
          awaiting_confirmation := true, retry_count := retry2 }
      if retry2 < 2 then
        { text := genDemoResponse current userName true env.llm,
          voice := "Let me try that again.", demo := failDemo }
      else
        { text := "I'm having trouble with this step after " ++ toString retry2 ++
                  " tries. Say **'skip'** to move on or **'yes'** to try once more.",
          voice := "Having trouble. Say skip to move on.", demo := failDemo }
    else success actionResult

/-- The initialization branch of `demo_node` (lines 358-372) for an absent
or inactive demo: show step 0's intro, store
active/step 0/awaiting/retry 0. -/
def demoInit (userName : String) (env : DemoEnv) : DemoResult :=
  { text := genDemoResponse 0 userName false env.llm,
    voice := (demoStepsGet 0).voice_script,
    demo := { is_active := true, step := 0, target_site := "youtube",
              awaiting_confirmation := true, retry_count := 0 } }

/-- `demo_node` (demo_node.py lines 345-479) over the oracle environment:
initialization, the user-input block, then step execution. -/
def demo_node (state : AgentStateM) (env : DemoEnv) : DemoResult :=
  let userName := demoUserName state.user_context
  match state.demo with
  | some d =>
    if d.is_active then
      match demoInputPhase d state.messages userName env with
      | .early r => r
      | .run s retry => demoExecutePhase s retry userName env
    else demoInit userName env
  | none => demoInit userName env

-- ===========================================================================
-- C9: enrichment service
-- (src/services/enrichment_service/app/search.py and main.py)
-- ===========================================================================

/-- One search-style result dict (`title`, `url`, `description`). -/
structure SearchResult where
  title : String
  url : String
  description : String
deriving DecidableEq, Repr

/-- The outcome of the `googlesearch.search(...)` call, as an oracle:
the module failed to import (`search is None`), the generator yielded
these URLs, or iterating it raised. -/
inductive SearchOutcome where
  | unavailable
  | yielded (urls : List String)
  | raised (msg : String)
deriving Repr

/-- `MOCK_COMPANY_DATA` (search.py lines 19-46), in dict insertion order. -/
def MOCK_COMPANY_DATA : List (String × List SearchResult) :=
  [("openai",
    [{ title := "OpenAI - Official Website", url := "https://openai.com",
       description := "OpenAI is an AI research company. Creators of ChatGPT, GPT-4, DALL-E." },
     { title := "OpenAI - Wikipedia", url := "https://en.wikipedia.org/wiki/OpenAI",
       description := "Founded in 2015, OpenAI is an AI research lab based in San Francisco." }]),
   ("microsoft",
    [{ title := "Microsoft Corporation", url := "https://microsoft.com",
       description := "Microsoft is a technology company known for Windows, Office, and Azure." }]),
   ("google",
    [{ title := "Google - About", url := "https://about.google",
       description := "Google is a technology company specializing in search, cloud, and AI." }])]

/-- `urlparse(url).netloc` for the URL shapes this service handles: the
text between `"://"` and the next `/`, empty when the URL has no scheme
part. -/
def extractDomain (url : String) : String :=
  if pyIn "://" url then
    let after := ((pySplit "://" url).drop 1).headD ""
    (pySplit "/" after).headD ""
  else ""

/-- Python `str.title()` restricted to this code path: capitalize the first
letter of every alphabetic run, lower-case the rest. -/
def pyTitle (s : String) : String :=
  (titleGo false s.data).asString
where
  titleGo (prevAlpha : Bool) : List Char → List Char
    | [] => []
    | c :: rest =>
      if c.isAlpha then
        (if prevAlpha then c.toLower else c.toUpper) :: titleGo true rest
      else c :: titleGo false rest

/-- `extract_title_from_url` (search.py lines 109-122): last non-empty path
segment with hyphens/underscores as spaces, title-cased, suffixed with
the domain; the domain alone when the path is empty.  (`unquote` is the
identity on the percent-free URLs this model covers.) -/
def extractTitleFromUrl (url : String) : String :=
  let netloc := extractDomain url
  let path :=
    if pyIn "://" url then
      let after := ((pySplit "://" url).drop 1).headD ""
      match (pySplit "/" after).tail with
      | [] => ""
      | segs => "/" ++ pyJoin "/" segs
    else url
  let segments := (pySplit "/" path).filter (fun s => !(s = ""))
  match segments.getLast? with
  | some lastSeg =>
    let t := pyTitle (pyReplace (pyReplace lastSeg "-" " ") "_" " ")
    t ++ " - " ++ netloc
  | none => netloc

/-- The fallback chain of `search_company_info` after the Google attempt:
the first mock entry whose key occurs in the lower-cased stripped query,
else the single synthetic result pointing at a google.com query URL. -/
def searchFallback (queryLower query : String) : List SearchResult :=
  match (MOCK_COMPANY_DATA.find? (fun kv => pyIn kv.1 queryLower)).map (fun kv => kv.2) with
  | some rs => rs
  | none =>
    [{ title := "Search results for " ++ query,
       url := "https://www.google.com/search?q=" ++ pyReplace query " " "+",
       description := "Google search rate-limited. Visit the link to search manually for " ++ query ++ "." }]

/-- `search_company_info` (search.py lines 49-96) over the search oracle:
build result items from the yielded URLs and return them when non-empty;
a raise is swallowed; both the empty-yield and the raise fall through to
the mock table and then the generic synthetic result. -/
def search_company_info (query : String) (outcome : SearchOutcome) :
    List SearchResult :=
  let queryLower := pyStrip (pyLower query)
  match outcome with
  | .yielded urls =>
    let results := urls.map (fun u =>
      { title := extractTitleFromUrl u, url := u,
        description := "Search result from " ++ extractDomain u })
    if results.isEmpty then searchFallback queryLower query else results
  | .raised _ => searchFallback queryLower query
  | .unavailable => searchFallback queryLower query

/-- The `EnrichResponse` body (enrichment main.py). -/
structure EnrichResponse where
  query : String
  results : List SearchResult
  summary : String
deriving DecidableEq, Repr

/-- The `/enrich` handler (enrichment main.py lines 49-75): call the search,
then build the two-sentence summary, with `'N/A'` standing in for a
missing title. -/
def enrich_company (query : String) (outcome : SearchOutcome) : EnrichResponse :=
  let results := search_company_info query outcome
  let summary :=
    if results.isEmpty then "No results found for '" ++ query ++ "'."
    else "Found " ++ toString results.length ++ " results for '" ++ query ++
         "'. " ++ "Top result: " ++ ((results.head?.map (fun r => r.title)).getD "N/A")
  { query := query, results := results, summary := summary }

-- ===========================================================================
-- C10: browser-service WebSocket control channel
-- (src/services/browser_service/app/main.py, lines 283-320)
-- ===========================================================================

/-- The key/value payload a `browser_manager` operation returns (the dicts
built in main.py's BrowserManager methods). -/
def BrowserData := List (String × String)
deriving instance DecidableEq, Repr for BrowserData

/-- Outcomes of each `browser_manager` method for the received params, as
oracles (`.error` = the awaited call raised). -/
structure WsOutcomes where
  navigate : Except String BrowserData
  click : Except String BrowserData
  typeText : Except String BrowserData
  getText : Except String BrowserData
  screenshot : Except String BrowserData
  pageInfo : Except String BrowserData

/-- `data.get("action")` of one received JSON message (`none` = key
absent, i.e. Python `None`). -/
structure WsMessage where
  action : Option String
deriving DecidableEq, Repr

/-- The JSON reply `send_json` emits: `success`, the echoed `action`, and
either a `data` or an `error` key. -/
structure WsReply where
  success : Bool
  action : Option String
  data : Option BrowserData
  error : Option String
deriving DecidableEq, Repr

/-- Python's f-string rendering of the echoed action (`None` for an absent
key). -/
def pyShowAction : Option String → String
  | some a => a
  | none => "None"

/-- One iteration of the `websocket_browser` loop (main.py lines 293-317):
dispatch on the action name; an unrecognized action produces the
`{"error": ...}` dict as a *successful* result; a raising operation
produces `success: false`; either way the loop continues, so the second
component records that the socket stays open for further commands. -/
def wsStep (m : WsMessage) (o : WsOutcomes) : WsReply × Bool :=
  let run : Except String BrowserData :=
    if m.action = some "navigate" then o.navigate
    else if m.action = some "click" then o.click
    else if m.action = some "type" then o.typeText
    else if m.action = some "get_text" then o.getText
    else if m.action = some "screenshot" then o.screenshot
    else if m.action = some "page_info" then o.pageInfo
    else Except.ok [("error", "Unknown action: " ++ pyShowAction m.action)]
  match run with
  | .ok d => ({ success := true, action := m.action, data := some d, error := none }, true)
  | .error e => ({ success := false, action := m.action, data := none, error := some e }, true)

-- ===========================================================================
-- C8: password hashing
-- (src/services/conversation_service/app/auth.py, lines 23-42)
-- ===========================================================================

/-- One character's UTF-8 bytes, as CPython's `str.encode("utf-8")`
produces them (passlib encodes the password before handing it to
bcrypt). -/
def utf8EncodeCharM (c : Char) : List UInt8 :=
  let v := c.toNat
  if v < 0x80 then [UInt8.ofNat v]
  else if v < 0x800 then
    [UInt8.ofNat (0xC0 ||| (v >>> 6)), UInt8.ofNat (0x80 ||| (v &&& 0x3F))]
  else if v < 0x10000 then
    [UInt8.ofNat (0xE0 ||| (v >>> 12)), UInt8.ofNat (0x80 ||| ((v >>> 6) &&& 0x3F)),
     UInt8.ofNat (0x80 ||| (v &&& 0x3F))]
  else
    [UInt8.ofNat (0xF0 ||| (v >>> 18)), UInt8.ofNat (0x80 ||| ((v >>> 12) &&& 0x3F)),
     UInt8.ofNat (0x80 ||| ((v >>> 6) &&& 0x3F)), UInt8.ofNat (0x80 ||| (v &&& 0x3F))]

/-- A string's UTF-8 byte sequence. -/
def utf8Bytes (s : String) : List UInt8 :=
  (s.data.map utf8EncodeCharM).flatten

/-- Modelled from the spec and auth.py's configuration: passlib's bcrypt
handler with the default `truncate_error=False` (auth.py's own comment:
"Using truncate_error=False to handle bcrypt's 72-byte limit") silently
keys the Blowfish digest on only the first 72 UTF-8 bytes of the
password.  The Blowfish-based digest itself lives in the external bcrypt
backend, not in this repository, so the development is parametric in a
`digest : salt bytes → key bytes → digest bytes` function; every theorem
about `hash_password`/`verify_password` below holds for all digests, the
real one included. -/
def bcryptKeyBytes (password : String) : List UInt8 :=
  (utf8Bytes password).take 72

/-- A parsed bcrypt modular-crypt hash: cost, salt and digest (the stored
string `$2b$12$<salt><digest>` carries exactly these). -/
structure BcryptHash where
  cost : Nat
  salt : List UInt8
  digest : List UInt8
deriving DecidableEq, Repr

/-- `hash_password` (auth.py lines 35-37): bcrypt with 12 rounds over the
truncated key, under the given salt (passlib draws the salt at random;
it is explicit here). -/
def hash_password (digest : List UInt8 → List UInt8 → List UInt8)
    (salt : List UInt8) (password : String) : BcryptHash :=
  { cost := 12, salt := salt, digest := digest salt (bcryptKeyBytes password) }

/-- `verify_password` (auth.py lines 40-42): recompute the digest of the
candidate under the stored hash's salt and compare. -/
def verify_password (digest : List UInt8 → List UInt8 → List UInt8)
    (plain : String) (hashed : BcryptHash) : Bool :=
  digest hashed.salt (bcryptKeyBytes plain) == hashed.digest

/-- The bcrypt base64 alphabet (`./A-Za-z0-9`), used to render the stored
hash string. -/
def bcrypt64Chars : List Char :=
  "./ABCDEFGHIJKLMNOPQRSTUVWXYZabcdefghijklmnopqrstuvwxyz0123456789".data

/-- A crude bcrypt-base64 rendering of a byte list (6 bits per character;
the exact grouping is irrelevant to the theorems, which only use the
leading `$`). -/
def bcrypt64 (bs : List UInt8) : List Char :=
  bs.map (fun b => bcrypt64Chars.getD (b.toNat % 64) '.')

/-- The stored hash string's characters: `$2b$12$`, the salt, the digest.
Always begins with `$`, which is what separates it from ordinary
plaintexts. -/
def renderBcryptHash (h : BcryptHash) : List Char :=
  '$' :: '2' :: 'b' :: '$' :: '1' :: '2' :: '$' :: (bcrypt64 h.salt ++ bcrypt64 h.digest)

-- ===========================================================================
-- Theorems
-- ===========================================================================

/-- C7: the SaveLead free-text parser maps
`"Jane Doe|jane@acme.com|Acme|Interested in enterprise"` to a lead with
name, email, company and summary as listed, and `"Jane Doe"` alone to a
lead with only the name populated. -/
theorem save_lead_parse_examples :
    save_lead_parse "Jane Doe|jane@acme.com|Acme|Interested in enterprise" =
      { name := "Jane Doe", email := some "jane@acme.com",
        company := some "Acme", summary := some "Interested in enterprise" } ∧
    save_lead_parse "Jane Doe" =
      { name := "Jane Doe", email := none, company := none, summary := none } := by
  exact ⟨by decide, by decide⟩

/-- C10: for every WebSocket message whose action is none of
navigate/click/type/get_text/screenshot/page_info, the service replies
with `success: true` and a data object holding only the
`"Unknown action: ..."` error string — never `success: false` — and the
socket stays open for further commands. -/
theorem ws_unknown_action_ok (m : WsMessage) (o : WsOutcomes) (a : String)
    (ha : m.action = some a)
    (hv : a ∉ ["navigate", "click", "type", "get_text", "screenshot", "page_info"]) :
    wsStep m o =
      ({ success := true, action := some a,
         data := some [("error", "Unknown action: " ++ a)], error := none }, true) := by
  simp only [List.mem_cons, List.not_mem_nil, or_false, not_or] at hv
  obtain ⟨h1, h2, h3, h4, h5, h6⟩ := hv
  simp [wsStep, ha, pyShowAction, h1, h2, h3, h4, h5, h6]

/-- Witness for C10 at the concrete action `"scroll"`. -/
theorem ws_unknown_action_witness :
    wsStep { action := some "scroll" }
      { navigate := .ok [], click := .ok [], typeText := .ok [],
        getText := .ok [], screenshot := .ok [], pageInfo := .ok [] } =
      ({ success := true, action := some "scroll",
         data := some [("error", "Unknown action: scroll")], error := none }, true) :=
  ws_unknown_action_ok _ _ "scroll" rfl (by decide)

/-- Every mock-table entry carries at least one result, so the fallback
chain never returns an empty list. -/
theorem searchFallback_ne_nil (ql q : String) : searchFallback ql q ≠ [] := by
  unfold searchFallback
  cases h : (MOCK_COMPANY_DATA.find? (fun kv => pyIn kv.1 ql)).map (fun kv => kv.2) with
  | none => simp
  | some rs =>
    obtain ⟨kv, hfind, hrs⟩ := Option.map_eq_some'.mp h
    have hmem := List.mem_of_find?_eq_some hfind
    subst hrs
    fin_cases hmem <;> simp

/-- The summary the `/enrich` handler builds whenever the search stage
returned at least one result. -/
theorem enrich_summary_of_ne_nil (query : String) (o : SearchOutcome)
    (h : search_company_info query o ≠ []) :
    (enrich_company query o).summary =
      "Found " ++ toString (search_company_info query o).length ++
      " results for '" ++ query ++ "'. " ++ "Top result: " ++
      (((search_company_info query o).head?.map (fun r => r.title)).getD "N/A") := by
  show (if (search_company_info query o).isEmpty = true then _ else _) = _
  rw [if_neg (by simpa [List.isEmpty_iff] using h)]

/-- C9: when the web-search call raises, `/enrich` surfaces no provider
error: the result list is exactly the fallback chain's (mock-table
substring match, else one synthetic search-engine-query result), is never
empty, is independent of the raised error's text, and the summary has the
form `Found {n} results for '{query}'. Top result: {title}` with n ≥ 1. -/
theorem enrich_raised_fallback (query msg msg2 : String) :
    (enrich_company query (.raised msg)).results =
      searchFallback (pyStrip (pyLower query)) query ∧
    (enrich_company query (.raised msg)).results ≠ [] ∧
    1 ≤ (enrich_company query (.raised msg)).results.length ∧
    enrich_company query (.raised msg) = enrich_company query (.raised msg2) ∧
    (enrich_company query (.raised msg)).summary =
      "Found " ++ toString (enrich_company query (.raised msg)).results.length ++
      " results for '" ++ query ++ "'. " ++ "Top result: " ++
      (((enrich_company query (.raised msg)).results.head?.map
          (fun r => r.title)).getD "N/A") := by
  have hres : (enrich_company query (.raised msg)).results =
      searchFallback (pyStrip (pyLower query)) query := rfl
  have hne : (enrich_company query (.raised msg)).results ≠ [] := by
    rw [hres]; exact searchFallback_ne_nil (pyStrip (pyLower query)) query
  refine ⟨hres, hne, ?_, rfl, ?_⟩
  · have := List.length_pos.mpr hne
    omega
  · exact enrich_summary_of_ne_nil query (.raised msg) hne

/-- Witness for C9: there are no hypotheses to discharge, but the seeded
`openai` entry documents the mock-table path on a concrete query. -/
theorem enrich_raised_fallback_witness :
    (enrich_company "OpenAI" (.raised "HTTP 429")).results =
      [{ title := "OpenAI - Official Website", url := "https://openai.com",
         description := "OpenAI is an AI research company. Creators of ChatGPT, GPT-4, DALL-E." },
       { title := "OpenAI - Wikipedia", url := "https://en.wikipedia.org/wiki/OpenAI",
         description := "Founded in 2015, OpenAI is an AI research lab based in San Francisco." }] ∧
    (enrich_company "OpenAI" (.raised "HTTP 429")).summary =
      "Found 2 results for 'OpenAI'. Top result: OpenAI - Official Website" := by
  have h := enrich_raised_fallback "OpenAI" "HTTP 429" "HTTP 429"
  exact ⟨by decide, by decide⟩

/-- C8 (amended): for every digest function — the external bcrypt backend's
included — verification of a password against its own hash succeeds;
verification also succeeds for any *other* password agreeing on the first
72 UTF-8 bytes, because passlib's bcrypt silently truncates the key, so
`verify_password(p, hash_password(p2))` is not false for every p ≠ p2;
and the stored hash renders in bcrypt's `$2b$12$…` modular-crypt format,
so it never equals a plaintext that does not begin with `$`. -/
theorem password_bcrypt_amended :
    (∀ (digest : List UInt8 → List UInt8 → List UInt8) (salt : List UInt8)
        (p : String), verify_password digest p (hash_password digest salt p) = true) ∧
    (∀ (digest : List UInt8 → List UInt8 → List UInt8) (salt : List UInt8)
        (p q : String), bcryptKeyBytes p = bcryptKeyBytes q →
      verify_password digest p (hash_password digest salt q) = true) ∧
    (∀ (digest : List UInt8 → List UInt8 → List UInt8) (salt : List UInt8)
        (p q : String), q.data.head? ≠ some '$' →
      renderBcryptHash (hash_password digest salt p) ≠ q.data) := by
  refine ⟨?_, ?_, ?_⟩
  · intro digest salt p
    simp [verify_password, hash_password]
  · intro digest salt p q h
    simp [verify_password, hash_password, h]
  · intro digest salt p q h heq
    apply h
    rw [← heq]
    rfl

/-- Witness for C8's amended claim, with a concrete stand-in digest, a
concrete salt, and concrete 73-character passwords sharing their first 72
bytes. -/
theorem password_bcrypt_witness :
    verify_password (fun s k => (s ++ k).take 23) "secret"
      (hash_password (fun s k => (s ++ k).take 23) [7, 7] "secret") = true ∧
    verify_password (fun s k => (s ++ k).take 23)
      (String.mk (List.replicate 72 'a' ++ ['b']))
      (hash_password (fun s k => (s ++ k).take 23) [7, 7]
        (String.mk (List.replicate 72 'a' ++ ['c']))) = true ∧
    renderBcryptHash (hash_password (fun s k => (s ++ k).take 23) [7, 7] "secret") ≠
      "secret".data := by
  refine ⟨?_, ?_, ?_⟩
  · exact password_bcrypt_amended.1 (fun s k => (s ++ k).take 23) [7, 7] "secret"
  · exact password_bcrypt_amended.2.1 (fun s k => (s ++ k).take 23) [7, 7]
      (String.mk (List.replicate 72 'a' ++ ['b']))
      (String.mk (List.replicate 72 'a' ++ ['c'])) (by decide)
  · exact password_bcrypt_amended.2.2 (fun s k => (s ++ k).take 23) [7, 7] "secret"
      "secret" (by decide)

/-- Two distinct 73-character passwords agreeing on their first 72 bytes. -/
def pwLongA : String := String.mk (List.replicate 72 'a' ++ ['b'])

/-- The partner password of `pwLongA`, differing only in byte 73. -/
def pwLongB : String := String.mk (List.replicate 72 'a' ++ ['c'])

/-- C8 (counterexample): with the bcrypt key truncated to 72 bytes — the
behaviour auth.py's own comment acknowledges ("bcrypt's 72-byte limit"),
and which holds for every digest function, the backend's included (see the
second conjunct of the amended theorem) — two distinct passwords verify
against each other's hashes, refuting
"`verify_password(p, hash_password(p2))` returns false for p ≠ p2". -/
theorem password_truncation_ctrex :
    pwLongA ≠ pwLongB ∧
    verify_password (fun s k => (s ++ k).take 23) pwLongA
      (hash_password (fun s k => (s ++ k).take 23) [7, 7] pwLongB) = true := by
  exact ⟨by decide, by decide⟩

/-- C4 (amended): a PATCH whose `status` string is non-empty and outside
the enumeration passes the pydantic boundary unrejected (the schema
declares `status` as a plain optional string), reaches the handler, and
fails there with the unhandled `LeadStatus` `ValueError` — an HTTP 500,
not a 4xx; the stored lead is still left unchanged because the session
closes without committing. -/
theorem lead_update_invalid_status_amended (stored : LeadRow) (s : String)
    (hs : leadStatusOf s = none) (hne : s ≠ "") :
    validateLeadUpdate { status := some s } = .ok { status := some s } ∧
    patch_lead stored { status := some s } =
      .serverError ("ValueError: '" ++ s ++ "' is not a valid LeadStatus") ∧
    storedAfterPatch stored { status := some s } = stored := by
  have hval : validateLeadUpdate { status := some s } = .ok { status := some s } := rfl
  have hupd : update_lead stored { status := some s } =
      .error ("ValueError: '" ++ s ++ "' is not a valid LeadStatus") := by
    simp [update_lead, hne, hs]
  have hp : patch_lead stored { status := some s } =
      .serverError ("ValueError: '" ++ s ++ "' is not a valid LeadStatus") := by
    simp [patch_lead, hval, hupd]
  refine ⟨hval, hp, ?_⟩
  simp [storedAfterPatch, hp]

/-- The stored lead row in C4's counterexample. -/
def c4Row : LeadRow :=
  { name := "Original Name", email := some "o@example.com", phone := none,
    company := none, summary := none, status := "new" }

/-- C4 (counterexample): the status string `"archived"` is outside
new|contacted|qualified|converted|lost, yet the boundary validation
accepts the body — the request *does* reach business logic, where it
dies as a 500, not a 4xx. -/
theorem lead_update_invalid_status_ctrex :
    validateLeadUpdate { status := some "archived" } =
      .ok { status := some "archived" } ∧
    patch_lead c4Row { status := some "archived" } =
      .serverError "ValueError: 'archived' is not a valid LeadStatus" ∧
    storedAfterPatch c4Row { status := some "archived" } = c4Row := by
  exact ⟨rfl, by decide, by decide⟩

/-- Witness for C4's amended claim at the concrete status `"stale"`. -/
theorem lead_update_invalid_status_witness :
    validateLeadUpdate { status := some "stale" } = .ok { status := some "stale" } ∧
    patch_lead c4Row { status := some "stale" } =
      .serverError ("ValueError: '" ++ "stale" ++ "' is not a valid LeadStatus") ∧
    storedAfterPatch c4Row { status := some "stale" } = c4Row :=
  lead_update_invalid_status_amended c4Row "stale" (by decide) (by decide)

/-- C1 (amended): the foreground sync endpoint never searches the CRM by
email — its try block updates by the stored `external_id` or creates
directly; moreover, because models.py declares no `external_id` column,
the endpoint's very first attribute read raises `AttributeError` on any
freshly loaded lead, so the foreground sync then reports `success: false`
with that error and performs no CRM call at all; the search-before-create
dedup exists only in the background routine, whose (likewise
attribute-dead) unsynced path for a lead with a non-empty email does
search first and links without creating when the search finds a
contact. -/
theorem sync_lead_foreground_never_searches :
    (∀ (l : PyLead) (crm : Option CrmAdapter) (prov : String) (now : Nat)
        (e : String), CrmCall.search e ∉ (sync_lead l crm prov now).calls) ∧
    (∀ (row : LeadRow) (adapter : CrmAdapter) (prov : String) (now : Nat),
      (sync_lead (loadLead row) (some adapter) prov now).calls = [] ∧
      (sync_lead (loadLead row) (some adapter) prov now).response.success = false ∧
      (sync_lead (loadLead row) (some adapter) prov now).response.message =
        "Sync failed: 'Lead' object has no attribute 'external_id'") ∧
    (∀ (l : PyLead) (adapter : CrmAdapter) (now : Nat) (em : String),
      l.dynExternalId = some none → l.row.email = some em → em ≠ "" →
      (sync_lead_to_crm l adapter now).calls.head? = some (CrmCall.search em) ∧
      (∀ c, adapter.searchContact em = some c →
        (sync_lead_to_crm l adapter now).calls = [CrmCall.search em] ∧
        (sync_lead_to_crm l adapter now).lead.dynExternalId =
          some (some c.external_id))) := by
  refine ⟨?_, ?_, ?_⟩
  · intro l crm prov now e
    cases crm with
    | none => simp [sync_lead]
    | some adapter =>
      cases hx : l.dynExternalId with
      | none => simp [sync_lead, readExternalId, hx]
      | some extId =>
        cases extId with
        | none =>
          cases hc : adapter.createContact (leadDataOf l.row) with
          | ok c => simp [sync_lead, readExternalId, hx, hc]
          | error err => simp [sync_lead, readExternalId, hx, hc]
        | some eid =>
          cases hu : adapter.updateContact eid (leadDataOf l.row) with
          | ok c => simp [sync_lead, readExternalId, hx, hu]
          | error err => simp [sync_lead, readExternalId, hx, hu]
  · intro row adapter prov now
    refine ⟨rfl, rfl, rfl⟩
  · intro l adapter now em hx hem hne
    have hT : (match l.row.email with
        | some e => !(e = "")
        | none => false) = true := by
      rw [hem]; simp [hne]
    constructor
    · cases hs : adapter.searchContact em with
      | some c =>
        simp [sync_lead_to_crm, readExternalId, hx, hT, hem, hs, hne]
      | none =>
        cases hc : adapter.createContact (leadDataOf l.row) with
        | ok c => simp [sync_lead_to_crm, readExternalId, hx, hT, hem, hs, hc, hne]
        | error err => simp [sync_lead_to_crm, readExternalId, hx, hT, hem, hs, hc, hne]
    · intro c hs
      constructor
      · simp [sync_lead_to_crm, readExternalId, hx, hT, hem, hs, hne]
      · simp [sync_lead_to_crm, readExternalId, hx, hT, hem, hs, hne]

/-- C1's concrete lead row: Jane Doe with a non-empty email. -/
def janeRow : LeadRow :=
  { name := "Jane Doe", email := some "jane@acme.com", phone := none,
    company := none, summary := none, status := "new" }

/-- C1's concrete configured adapter: its search *would* find an existing
contact for Jane's email, and its create would mint a different one. -/
def dupAdapter : CrmAdapter :=
  { searchContact := fun _ => some { external_id := "EXT-1", provider := "hubspot" },
    createContact := fun _ => .ok { external_id := "EXT-2", provider := "hubspot" },
    updateContact := fun _ _ => .ok { external_id := "EXT-9", provider := "hubspot" } }

/-- C1 (counterexample): a lead with a non-empty email and a configured
adapter whose search finds an existing contact — yet the foreground sync
issues *no* search (no CRM call at all: the `external_id` attribute read
fails first) and reports failure instead of linking and recording the
linkage fields. -/
theorem sync_lead_search_before_create_ctrex :
    dupAdapter.searchContact "jane@acme.com" =
      some { external_id := "EXT-1", provider := "hubspot" } ∧
    (sync_lead (loadLead janeRow) (some dupAdapter) "hubspot" 0).calls = [] ∧
    (sync_lead (loadLead janeRow) (some dupAdapter) "hubspot" 0).response.success
      = false ∧
    (sync_lead (loadLead janeRow) (some dupAdapter) "hubspot" 0).response.message =
      "Sync failed: 'Lead' object has no attribute 'external_id'" := by
  exact ⟨rfl, rfl, rfl, rfl⟩

/-- A hypothetical lead instance whose `external_id` attribute has been
assigned `None`, on which the background routine's dedup path runs. -/
def janeAssigned : PyLead := { row := janeRow, dynExternalId := some none }

/-- Witness for C1's amended claim: the universal parts applied at Jane's
lead, and the background-path hypotheses discharged on the instance with
the `external_id` attribute assigned. -/
theorem sync_lead_no_search_witness :
    ((sync_lead (loadLead janeRow) (some dupAdapter) "hubspot" 0).calls = [] ∧
     (sync_lead (loadLead janeRow) (some dupAdapter) "hubspot" 0).response.success
       = false ∧
     (sync_lead (loadLead janeRow) (some dupAdapter) "hubspot" 0).response.message =
       "Sync failed: 'Lead' object has no attribute 'external_id'") ∧
    (sync_lead_to_crm janeAssigned dupAdapter 0).calls.head? =
      some (CrmCall.search "jane@acme.com") ∧
    (sync_lead_to_crm janeAssigned dupAdapter 0).calls =
      [CrmCall.search "jane@acme.com"] ∧
    (sync_lead_to_crm janeAssigned dupAdapter 0).lead.dynExternalId =
      some (some "EXT-1") := by
  have h := sync_lead_foreground_never_searches
  have hbg := h.2.2 janeAssigned dupAdapter 0 "jane@acme.com" rfl rfl (by decide)
  have hlink := hbg.2 { external_id := "EXT-1", provider := "hubspot" } rfl
  exact ⟨h.2.1 janeRow dupAdapter "hubspot" 0, hbg.1, hlink.1, hlink.2⟩

/-- No `AgentState.demo` entry is an active demo. -/
def demoNotActive (state : AgentStateM) : Prop :=
  ∀ d, state.demo = some d → d.is_active = false

/-- C6 (amended): with an active demo the router always returns `demo`; with
no active demo it returns `chat` when the message list is empty, when the
newest message is not user-authored, when classification raises, and when
the classified intent is outside start_demo/navigate/enrich/crm/chat; a
`start_demo` classification, however, returns `demo` together with the
DemoState reset, so the default-to-chat clause holds only for values
outside that five-name set. -/
theorem router_dispatch_amended :
    (∀ (state : AgentStateM) (oc : Option String) (d : DemoState),
      state.demo = some d → d.is_active = true →
      router_node state oc = { next_action := "demo", resetDemo := false }) ∧
    (∀ (state : AgentStateM) (oc : Option String), demoNotActive state →
      state.messages.getLast? = none →
      router_node state oc = { next_action := "chat", resetDemo := false }) ∧
    (∀ (state : AgentStateM) (oc : Option String) (last : Msg),
      demoNotActive state → state.messages.getLast? = some last →
      last.role = Role.assistant →
      router_node state oc = { next_action := "chat", resetDemo := false }) ∧
    (∀ (state : AgentStateM) (last : Msg), demoNotActive state →
      state.messages.getLast? = some last → last.role = Role.user →
      router_node state none = { next_action := "chat", resetDemo := false }) ∧
    (∀ (state : AgentStateM) (raw : String) (last : Msg), demoNotActive state →
      state.messages.getLast? = some last → last.role = Role.user →
      pyLower (pyStrip raw) ∉ ["start_demo", "navigate", "enrich", "crm", "chat"] →
      router_node state (some raw) = { next_action := "chat", resetDemo := false }) ∧
    (∀ (state : AgentStateM) (raw : String) (last : Msg), demoNotActive state →
      state.messages.getLast? = some last → last.role = Role.user →
      pyLower (pyStrip raw) = "start_demo" →
      router_node state (some raw) = { next_action := "demo", resetDemo := true }) := by
  have hNA : ∀ (state : AgentStateM), demoNotActive state →
      (match state.demo with
        | some d => d.is_active
        | none => false) = false := by
    intro state h
    cases hd : state.demo with
    | none => rfl
    | some d => exact h d hd
  refine ⟨?_, ?_, ?_, ?_, ?_, ?_⟩
  · intro state oc d hd ha
    simp [router_node, hd, ha]
  · intro state oc h hlast
    unfold router_node
    rw [hNA state h]
    simp [hlast]
  · intro state oc last h hlast hrole
    unfold router_node
    rw [hNA state h]
    simp [hlast, hrole]
  · intro state last h hlast hrole
    unfold router_node
    rw [hNA state h]
    simp [hlast, hrole]
  · intro state raw last h hlast hrole hint
    unfold router_node
    rw [hNA state h]
    simp only [List.mem_cons, List.not_mem_nil, or_false, not_or] at hint
    obtain ⟨h1, h2, h3, h4, h5⟩ := hint
    simp [hlast, hrole, h1, h2, h3, h4, h5]
  · intro state raw last h hlast hrole hint
    unfold router_node
    rw [hNA state h]
    simp [hlast, hrole, hint]

/-- An agent state carrying an active demo, for C6's witness. -/
def c6ActiveState : AgentStateM :=
  { messages := [], user_context := none,
    demo := some { is_active := true, step := 2, target_site := "youtube",
                   awaiting_confirmation := true, retry_count := 0 } }

/-- The concrete agent state of C6's counterexample: no demo, one
user-authored message. -/
def c6State : AgentStateM :=
  { messages := [{ role := Role.user, content := "show me the demo" }],
    user_context := none, demo := none }

/-- C6 (counterexample): the classifier value `start_demo` lies outside
navigate/enrich/crm/chat, yet the router returns `demo` (with a DemoState
reset), not `chat` — refuting the claim's default-to-chat clause as
stated. -/
theorem router_start_demo_ctrex :
    router_node c6State (some "start_demo") =
      { next_action := "demo", resetDemo := true } ∧
    (router_node c6State (some "start_demo")).next_action ≠ "chat" ∧
    "start_demo" ∉ ["navigate", "enrich", "crm", "chat"] := by
  exact ⟨by decide, by decide, by decide⟩

/-- Witness for C6's amended claim: each clause applied at a concrete
state, classifier outcome and message. -/
theorem router_dispatch_witness :
    router_node c6ActiveState (some "crm") =
      { next_action := "demo", resetDemo := false } ∧
    router_node { messages := [], user_context := none, demo := none } none =
      { next_action := "chat", resetDemo := false } ∧
    router_node c6State (some "book a table") =
      { next_action := "chat", resetDemo := false } ∧
    router_node c6State (some " Start_Demo ") =
      { next_action := "demo", resetDemo := true } := by
  refine ⟨?_, ?_, ?_, ?_⟩
  · exact router_dispatch_amended.1 _ (some "crm") _ rfl rfl
  · exact router_dispatch_amended.2.1 _ none (by intro d hd; cases hd) rfl
  · exact router_dispatch_amended.2.2.2.2.1 _ "book a table" _
      (by intro d hd; cases hd) rfl rfl (by decide)
  · exact router_dispatch_amended.2.2.2.2.2 _ " Start_Demo " _
      (by intro d hd; cases hd) rfl rfl (by decide)

/-- Only steps 1-5 of the table carry an action. -/
theorem action_some_step_range (s : Nat) (a : String)
    (h : (demoStepsGet s).action = some a) :
    s = 1 ∨ s = 2 ∨ s = 3 ∨ s = 4 ∨ s = 5 := by
  unfold demoStepsGet at h
  split_ifs at h with h0 h1 h2 h3 h4 h5
  · exact Or.inl h1
  · exact Or.inr (Or.inl h2)
  · exact Or.inr (Or.inr (Or.inl h3))
  · exact Or.inr (Or.inr (Or.inr (Or.inl h4)))
  · exact Or.inr (Or.inr (Or.inr (Or.inr h5)))
  · exact absurd h (by simp [demoStep6])

/-- C5: whenever the executed step action's result text contains "issue" or
"error", the returned DemoState stays on the same step with the retry
counter incremented and `awaiting_confirmation` set — so a fresh user
confirmation is always required and no third attempt runs automatically;
below 2 total attempts the reply is the "let me try that again" retry
notice, and at 2 or more attempts it is the explicit
retry-once-more-or-skip question. -/
theorem demo_retry_policy (s retry : Nat) (userName : String) (env : DemoEnv)
    (act : String) (hact : (demoStepsGet s).action = some act)
    (hfail : (pyIn "issue" (pyLower (env.exec act retry)) ||
              pyIn "error" (pyLower (env.exec act retry))) = true) :
    (demoExecutePhase s retry userName env).demo =
      { is_active := true, step := s, target_site := "youtube",
        awaiting_confirmation := true, retry_count := retry + 1 } ∧
    (retry + 1 < 2 →
      (demoExecutePhase s retry userName env).text = demoRetryText ∧
      (demoExecutePhase s retry userName env).voice = "Let me try that again.") ∧
    (2 ≤ retry + 1 →
      (demoExecutePhase s retry userName env).text =
        "I'm having trouble with this step after " ++ toString (retry + 1) ++
        " tries. Say **'skip'** to move on or **'yes'** to try once more." ∧
      (demoExecutePhase s retry userName env).voice =
        "Having trouble. Say skip to move on.") := by
  have hs : s = 1 ∨ s = 2 ∨ s = 3 ∨ s = 4 ∨ s = 5 := action_some_step_range s act hact
  have hs0 : ¬(s = 0) := by rcases hs with h|h|h|h|h <;> omega
  have hs6 : ¬(s = 6) := by rcases hs with h|h|h|h|h <;> omega
  have hgen : genDemoResponse s userName true env.llm = demoRetryText := by
    simp [genDemoResponse, hs0, hs6]
  by_cases hr : retry + 1 < 2
  · refine ⟨?_, fun _ => ⟨?_, ?_⟩, fun hge => absurd hr (by omega)⟩ <;>
      simp [demoExecutePhase, hact, hfail, hr, hgen]
  · refine ⟨?_, fun hlt => absurd hlt hr, fun _ => ⟨?_, ?_⟩⟩ <;>
      simp [demoExecutePhase, hact, hfail, hr]

/-- The demo environment of C5's witness: the navigate action reports a
navigation issue. -/
def c5Env : DemoEnv :=
  { exec := fun _ _ => "Navigation issue: timeout", llm := some "step done",
    video1 := { present := false, paused := none },
    video2 := { present := false, paused := none } }

/-- Witness for C5 at step 1, first failure (retry counter 0 → 1). -/
theorem demo_retry_policy_witness :
    (demoExecutePhase 1 0 "there" c5Env).demo =
      { is_active := true, step := 1, target_site := "youtube",
        awaiting_confirmation := true, retry_count := 1 } ∧
    (0 + 1 < 2 →
      (demoExecutePhase 1 0 "there" c5Env).text = demoRetryText ∧
      (demoExecutePhase 1 0 "there" c5Env).voice = "Let me try that again.") ∧
    (2 ≤ 0 + 1 →
      (demoExecutePhase 1 0 "there" c5Env).text =
        "I'm having trouble with this step after " ++ toString (0 + 1) ++
        " tries. Say **'skip'** to move on or **'yes'** to try once more." ∧
      (demoExecutePhase 1 0 "there" c5Env).voice =
        "Having trouble. Say skip to move on.") :=
  demo_retry_policy 1 0 "there" c5Env "navigate_youtube" rfl (by decide)

/-- The shape every demo-state dict the engine itself stores satisfies
while active: the step is at most 6, and at most 5 when a confirmation is
pending (steps 3, 5 and 6 never await one). -/
def DemoWF (d : DemoState) : Prop :=
  d.is_active = true → d.step ≤ 6 ∧ (d.awaiting_confirmation = true → d.step ≤ 5)

/-- The cancelled demo-state dict (demo_node.py line 397). -/
def cancelledDemo : DemoState :=
  { is_active := false, step := 0, target_site := "",
    awaiting_confirmation := false, retry_count := 0 }

/-- The user-input block either falls through unchanged, advances one step
on a confirmation or skip (only possible while awaiting), or returns early
carrying the incoming dict unchanged or the cancelled dict. -/
theorem demoInputPhase_cases (d : DemoState) (msgs : List Msg) (userName : String)
    (env : DemoEnv) :
    demoInputPhase d msgs userName env = InputPhase.run d.step d.retry_count ∨
    (d.awaiting_confirmation = true ∧
      demoInputPhase d msgs userName env = InputPhase.run (d.step + 1) 0) ∨
    (∃ r, demoInputPhase d msgs userName env = InputPhase.early r ∧
      (r.demo = d ∨ r.demo = cancelledDemo)) := by
  unfold demoInputPhase
  by_cases hA : (d.awaiting_confirmation && !msgs.isEmpty) = true
  · rw [if_pos hA]
    have haw : d.awaiting_confirmation = true := (Bool.and_eq_true _ _).mp hA |>.1
    cases hlast : msgs.getLast? with
    | none => exact Or.inl rfl
    | some last =>
      dsimp only
      by_cases hrole : last.role = Role.user
      · rw [if_pos hrole]
        by_cases hc : (confirmWords.any fun c => pyIn c (pyLower last.content)) = true
        · rw [if_pos hc]; exact Or.inr (Or.inl ⟨haw, rfl⟩)
        · rw [if_neg hc]
          by_cases hsk : pyIn "skip" (pyLower last.content) = true
          · rw [if_pos hsk]; exact Or.inr (Or.inl ⟨haw, rfl⟩)
          · rw [if_neg hsk]
            by_cases hcn : (cancelWords.any fun c => pyIn c (pyLower last.content)) = true
            · rw [if_pos hcn]
              exact Or.inr (Or.inr ⟨_, rfl, Or.inr rfl⟩)
            · rw [if_neg hcn]
              cases hint : handleInterrupt last.content userName env with
              | some r => exact Or.inr (Or.inr ⟨_, rfl, Or.inl rfl⟩)
              | none => exact Or.inr (Or.inr ⟨_, rfl, Or.inl rfl⟩)
      · rw [if_neg hrole]; exact Or.inl rfl
  · rw [if_neg hA]; exact Or.inl rfl

/-- The stored dict of an execution turn is either the failure shape (same
step, awaiting, bumped retry counter; only possible when the step has an
action) or the success shape driven by the step table. -/
theorem demoExecutePhase_demo_shape (s retry : Nat) (userName : String)
    (env : DemoEnv) :
    ((∃ a, (demoStepsGet s).action = some a) ∧
      (demoExecutePhase s retry userName env).demo =
        { is_active := true, step := s, target_site := "youtube",
          awaiting_confirmation := true, retry_count := retry + 1 }) ∨
    (demoExecutePhase s retry userName env).demo =
      { is_active := decide (s < 6),
        step := if (demoStepsGet s).awaits_confirmation then s else s + 1,
        target_site := "youtube",
        awaiting_confirmation := (demoStepsGet s).awaits_confirmation,
        retry_count := 0 } := by
  unfold demoExecutePhase
  cases hact : (demoStepsGet s).action with
  | none =>
    simp only [hact]
    exact Or.inr trivial
  | some a =>
    simp only [hact]
    by_cases hfail : (pyIn "issue" (pyLower (env.exec a retry)) ||
        pyIn "error" (pyLower (env.exec a retry))) = true
    · rw [if_pos hfail]
      by_cases hr : retry + 1 < 2
      · rw [if_pos hr]; exact Or.inl ⟨⟨a, rfl⟩, rfl⟩
      · rw [if_neg hr]; exact Or.inl ⟨⟨a, rfl⟩, rfl⟩
    · rw [if_neg hfail]; exact Or.inr rfl

/-- A step that awaits confirmation has number 0, 1, 2 or 4 — at most 5 —
among the steps 0-6. -/
theorem awaits_step_le5 (s : Nat) (hs : s ≤ 6)
    (h : (demoStepsGet s).awaits_confirmation = true) : s ≤ 5 := by
  interval_cases s <;> revert h <;> decide

/-- Whatever the oracles answer, executing a step with number at most 6
stores a step of at most 7 and preserves the well-formedness shape. -/
theorem demoExecutePhase_wf (s retry : Nat) (userName : String) (env : DemoEnv)
    (hs : s ≤ 6) :
    (demoExecutePhase s retry userName env).demo.step ≤ 7 ∧
    DemoWF (demoExecutePhase s retry userName env).demo := by
  rcases demoExecutePhase_demo_shape s retry userName env with
    ⟨⟨a, hact⟩, hdemo⟩ | hdemo
  · have h15 := action_some_step_range s a hact
    rw [hdemo]
    refine ⟨by simp; omega, fun _ => ⟨by simp; omega, fun _ => by simp; omega⟩⟩
  · rw [hdemo]
    constructor
    · simp only []
      split_ifs <;> omega
    · intro hactive
      have hlt : s < 6 := by
        simpa using hactive
      constructor
      · simp only []
        split_ifs <;> omega
      · intro hawait
        have h5 := awaits_step_le5 s hs (by simpa using hawait)
        simp only []
        rw [if_pos (by simpa using hawait)]
        exact h5

/-- C2 (amended): completing step 6 deactivates the demo but stores step 7
(`current_step + 1`), not step 0; an explicit cancel does reset the state
to inactive/step 0; and the step stored after any demo turn on a
well-formed state stays within 0-7, within 0-6 whenever the stored state
is still active. -/
theorem demo_step_range_amended :
    (∀ (state : AgentStateM) (env : DemoEnv) (d : DemoState),
      state.demo = some d → d.is_active = true → d.step = 6 →
      d.awaiting_confirmation = false →
      (demo_node state env).demo =
        { is_active := false, step := 7, target_site := "youtube",
          awaiting_confirmation := false, retry_count := 0 }) ∧
    (∀ (state : AgentStateM) (env : DemoEnv) (d : DemoState) (last : Msg),
      state.demo = some d → d.is_active = true →
      d.awaiting_confirmation = true → state.messages.getLast? = some last →
      last.role = Role.user →
      (confirmWords.any fun c => pyIn c (pyLower last.content)) = false →
      pyIn "skip" (pyLower last.content) = false →
      (cancelWords.any fun c => pyIn c (pyLower last.content)) = true →
      (demo_node state env).demo = cancelledDemo) ∧
    (∀ (state : AgentStateM) (env : DemoEnv),
      (∀ d, state.demo = some d → DemoWF d) →
      (demo_node state env).demo.step ≤ 7 ∧ DemoWF (demo_node state env).demo) := by
  refine ⟨?_, ?_, ?_⟩
  · intro state env d hd ha h6 hawait
    have hip : demoInputPhase d state.messages (demoUserName state.user_context) env =
        InputPhase.run d.step d.retry_count := by
      unfold demoInputPhase
      rw [hawait]
      simp
    unfold demo_node
    rw [hd]
    simp only [ha, if_true, hip, h6]
    unfold demoExecutePhase demoStepsGet
    simp [demoStep6]
  · intro state env d last hd ha haw hlast hrole hconf hskip hcancel
    have hmsgs : state.messages ≠ [] := by
      intro hnil
      rw [hnil] at hlast
      cases hlast
    have hip : demoInputPhase d state.messages (demoUserName state.user_context) env =
        InputPhase.early
          { text := "No problem, " ++ demoUserName state.user_context ++
              "! Demo cancelled.",
            voice := "Demo cancelled. Talk to you later!", demo := cancelledDemo } := by
      unfold demoInputPhase
      have hA : (d.awaiting_confirmation && !state.messages.isEmpty) = true := by
        rw [haw]
        simp [List.isEmpty_iff, hmsgs]
      rw [if_pos hA, hlast]
      dsimp only
      rw [if_pos hrole, if_neg (by simp [hconf]), if_neg (by simp [hskip]),
        if_pos hcancel]
      rfl
    unfold demo_node
    rw [hd]
    simp only [ha, if_true, hip]
  · intro state env hwf
    unfold demo_node
    cases hd : state.demo with
    | none =>
      constructor
      · simp [demoInit]
      · intro _
        simp [demoInit]
    | some d =>
      by_cases ha : d.is_active = true
      · simp only [ha, if_true]
        have hWFd := hwf d hd
        rcases demoInputPhase_cases d state.messages (demoUserName state.user_context)
            env with hip | ⟨haw, hip⟩ | ⟨r, hip, hr⟩
        · rw [hip]
          exact demoExecutePhase_wf _ _ _ _ (hWFd ha).1
        · rw [hip]
          have h5 := (hWFd ha).2 haw
          exact demoExecutePhase_wf _ _ _ _ (by omega)
        · rw [hip]
          rcases hr with hr | hr
          · rw [hr]
            have := (hWFd ha).1
            exact ⟨by omega, hWFd⟩
          · rw [hr]
            exact ⟨by simp [cancelledDemo], by simp [DemoWF, cancelledDemo]⟩
      · have ha' : d.is_active = false := by
          cases hval : d.is_active
          · rfl
          · exact absurd hval ha
        simp only [ha', Bool.false_eq_true, if_false]
        constructor
        · simp [demoInit]
        · intro _
          simp [demoInit]

/-- The concrete inputs of C2's counterexample: a turn entering at the
completion step. -/
def c2State : AgentStateM :=
  { messages := [{ role := Role.user, content := "go on" }], user_context := none,
    demo := some { is_active := true, step := 6, target_site := "youtube",
                   awaiting_confirmation := false, retry_count := 0 } }

/-- A concrete oracle environment for the demo counterexamples and
witnesses: every action succeeds, the LLM replies, a paused video
exists. -/
def demoEnvC : DemoEnv :=
  { exec := fun _ _ => "Successfully done", llm := some "Step done, say next.",
    video1 := { present := true, paused := some true },
    video2 := { present := true, paused := some true } }

/-- C2 (counterexample): the turn that completes step 6 stores
`{is_active: false, step: 7}` — inactive, but with step 7, outside the
documented 0-6 range and not the claimed reset to 0. -/
theorem demo_step6_leaves_step7_ctrex :
    (demo_node c2State demoEnvC).demo =
      { is_active := false, step := 7, target_site := "youtube",
        awaiting_confirmation := false, retry_count := 0 } ∧
    (demo_node c2State demoEnvC).demo.step ≠ 0 ∧
    ¬((demo_node c2State demoEnvC).demo.step ≤ 6) := by
  exact ⟨by decide, by decide, by decide⟩

/-- The agent state of the cancel clause in C2's witness: step 2, awaiting,
newest message "stop". -/
def c2CancelState : AgentStateM :=
  { messages := [{ role := Role.user, content := "stop" }], user_context := none,
    demo := some { is_active := true, step := 2, target_site := "youtube",
                   awaiting_confirmation := true, retry_count := 0 } }

/-- Witness for C2's amended claim: the completion clause at the concrete
step-6 state, the cancel clause on the message `"stop"`, and the range
clause on the former. -/
theorem demo_step_range_witness :
    (demo_node c2State demoEnvC).demo =
      { is_active := false, step := 7, target_site := "youtube",
        awaiting_confirmation := false, retry_count := 0 } ∧
    (demo_node c2CancelState demoEnvC).demo = cancelledDemo ∧
    (demo_node c2State demoEnvC).demo.step ≤ 7 := by
  refine ⟨?_, ?_, ?_⟩
  · exact demo_step_range_amended.1 c2State demoEnvC _ rfl rfl rfl rfl
  · exact demo_step_range_amended.2.1 c2CancelState demoEnvC _
      { role := Role.user, content := "stop" } rfl rfl rfl rfl rfl
      (by decide) (by decide) (by decide)
  · exact (demo_step_range_amended.2.2 c2State demoEnvC
      (by intro d hd; cases hd; intro _; exact ⟨by decide, by intro h; cases h⟩)).1

/-- When the awaited user message matches no confirmation, skip or cancel
word, the turn returns early — through the interrupt handler or the
re-prompt — carrying the incoming demo dict unchanged. -/
theorem demoInputPhase_neither (d : DemoState) (msgs : List Msg)
    (userName : String) (env : DemoEnv) (last : Msg)
    (haw : d.awaiting_confirmation = true) (hlast : msgs.getLast? = some last)
    (hrole : last.role = Role.user)
    (hconf : (confirmWords.any fun c => pyIn c (pyLower last.content)) = false)
    (hskip : pyIn "skip" (pyLower last.content) = false)
    (hcancel : (cancelWords.any fun c => pyIn c (pyLower last.content)) = false) :
    ∃ text voice,
      demoInputPhase d msgs userName env =
        InputPhase.early { text := text, voice := voice, demo := d } := by
  have hmsgs : msgs ≠ [] := by
    intro hnil
    rw [hnil] at hlast
    cases hlast
  have hA : (d.awaiting_confirmation && !msgs.isEmpty) = true := by
    rw [haw]
    simp [List.isEmpty_iff, hmsgs]
  unfold demoInputPhase
  rw [if_pos hA, hlast]
  dsimp only
  rw [if_pos hrole, if_neg (by simp [hconf]), if_neg (by simp [hskip]),
    if_neg (by simp [hcancel])]
  cases hint : handleInterrupt last.content userName env with
  | some r => exact ⟨r.1, r.2, rfl⟩
  | none => exact ⟨_, _, rfl⟩

/-- C3 (amended): during an active demo awaiting confirmation, the six
interrupt commands "pause", "pause video", "hold", "play", "resume" and
"unpause" are handled without altering the stored demo dict at all —
whatever the video-state oracles answer; the spec's other two listed
commands are excluded because "stop video" contains the cancel word
"stop" (the demo is cancelled) and "continue video" contains the
confirmation word "continue" (the demo advances a step). -/
theorem demo_interrupt_frame_amended (state : AgentStateM) (env : DemoEnv)
    (d : DemoState) (last : Msg) (hd : state.demo = some d)
    (ha : d.is_active = true) (haw : d.awaiting_confirmation = true)
    (hlast : state.messages.getLast? = some last) (hrole : last.role = Role.user)
    (hmem : last.content ∈
      (["pause", "pause video", "hold", "play", "resume", "unpause"] :
        List String)) :
    (demo_node state env).demo = d := by
  have hwords : (confirmWords.any fun c => pyIn c (pyLower last.content)) = false ∧
      pyIn "skip" (pyLower last.content) = false ∧
      (cancelWords.any fun c => pyIn c (pyLower last.content)) = false := by
    simp only [List.mem_cons, List.not_mem_nil, or_false] at hmem
    rcases hmem with h|h|h|h|h|h <;> rw [h] <;> exact ⟨by decide, by decide, by decide⟩
  obtain ⟨text, voice, hip⟩ :=
    demoInputPhase_neither d state.messages (demoUserName state.user_context) env
      last haw hlast hrole hwords.1 hwords.2.1 hwords.2.2
  unfold demo_node
  rw [hd]
  simp only [ha, if_true, hip]

/-- The concrete agent state of C3's counterexample: step 2, awaiting
confirmation, newest message `"stop video"`. -/
def c3State : AgentStateM :=
  { messages := [{ role := Role.user, content := "stop video" }],
    user_context := none,
    demo := some { is_active := true, step := 2, target_site := "youtube",
                   awaiting_confirmation := true, retry_count := 0 } }

/-- C3 (counterexample): `"stop video"` is one of the claim's interrupt
commands (it heads the engine's own pause-word list), yet the turn runs
the cancel branch: the demo is deactivated and its step and awaiting flag
are reset — the state *is* altered, and no video query happens. -/
theorem demo_stop_video_cancels_ctrex :
    ("stop video" ∈ (["pause", "stop video", "pause video", "hold"] : List String)) ∧
    c3State.demo = some { is_active := true, step := 2, target_site := "youtube",
                          awaiting_confirmation := true, retry_count := 0 } ∧
    (demo_node c3State demoEnvC).demo = cancelledDemo ∧
    (demo_node c3State demoEnvC).text = "No problem, there! Demo cancelled." := by
  exact ⟨by decide, rfl, by decide, by decide⟩

/-- The concrete agent state of C3's witness: step 2, awaiting confirmation,
newest message `"pause"`. -/
def c3PauseState : AgentStateM :=
  { messages := [{ role := Role.user, content := "pause" }], user_context := none,
    demo := some { is_active := true, step := 2, target_site := "youtube",
                   awaiting_confirmation := true, retry_count := 0 } }

/-- Witness for C3's amended claim at the concrete command `"pause"`. -/
theorem demo_interrupt_frame_witness :
    (demo_node c3PauseState demoEnvC).demo =
      { is_active := true, step := 2, target_site := "youtube",
        awaiting_confirmation := true, retry_count := 0 } :=
  demo_interrupt_frame_amended c3PauseState demoEnvC _
    { role := Role.user, content := "pause" } rfl rfl rfl rfl rfl (by decide)

end Keeto
